import Mathlib

/-!
Verification of the session-lifecycle and route-guard core of the
"Portal Seguro" browser authentication layer.

The session manager lives in `src/composables/useSession.js`
(`initSession`, `startSession`, `endSession`, `updateSessionTimeout`,
the inactivity timer, `useRouteGuard`) and the route middleware in
`src/middleware/auth.js` (`AuthMiddleware.setupInterceptors`,
`requiresAuthentication`, `isAuthenticationRoute`, `checkAuthentication`,
`logRouteAccess`, `useRouteProtection.checkRouteAccess`).

The persisted store (`secureDB`, from `src/utils/indexeddb.js`) and the
token codec (`validateJWT` / `generateJWT`, from `src/utils/jwt.js`) are
not present under `src/`; they are modelled from the specification's
external-collaborator contracts (spec sections 4.1, 4.2 and 6).

Time is modelled in whole seconds as `Nat`; each operation that reads the
clock (`Date.now()` / `new Date()`) takes the current instant `now` as an
explicit argument.  The single-shot inactivity timer of the source
(`setTimeout`/`clearTimeout`) is modelled as the pending deadline, an
`Option Nat`: `startInactivityTimer` cancels any prior pending deadline
and installs `now + sessionTimeout`, exactly as the source clears and
re-arms the JS timer.
-/

namespace PortalSeguro

/-- Kinds of entries of the append-only event log, as in the source:
`SESSION_START`, `SESSION_END`, `UNAUTHORIZED_ACCESS`, `ROUTE_ACCESS`. -/
inductive EventKind where
  | SESSION_START
  | SESSION_END
  | UNAUTHORIZED_ACCESS
  | ROUTE_ACCESS
deriving DecidableEq, Repr

/-- One event-log entry: kind, actor, and the metadata object, modelled as
an association list of string keys to string values. -/
structure EventEntry where
  kind : EventKind
  actor : String
  metadata : List (String × String)
deriving DecidableEq, Repr

/-- A token persisted in the store together with its expiry instant
(`storeToken(token, ttlSeconds)` stores it with `expiresAt = now + ttl`). -/
structure StoredToken where
  value : String
  expiresAt : Nat
deriving DecidableEq, Repr

/-- Modelled from the spec: the Session Store (`secureDB` of
`src/utils/indexeddb.js`, absent from `src/`) is a durable key-value store
holding at most one current token with expiry semantics, plus an
append-only event log (spec sections 4.2 and 6).  Its operations never
throw; failures degrade to "no valid token" / silent log-drop.  The event
log is kept newest-first. -/
structure StoreState where
  token : Option StoredToken
  events : List EventEntry
deriving DecidableEq, Repr

/-- Modelled from the spec: `getValidToken()` returns a token only if
present and not expired, otherwise implicitly purges it (spec 4.2). -/
def getValidToken (now : Nat) (db : StoreState) : Option String × StoreState :=
  match db.token with
  | none => (none, db)
  | some tk =>
    if now < tk.expiresAt then (some tk.value, db)
    else (none, { db with token := none })

/-- Modelled from the spec: `storeToken(token, ttlSeconds)` persists the
token with expiry `now + ttlSeconds` (spec 4.2). -/
def storeToken (now : Nat) (token : String) (ttlSeconds : Nat) (db : StoreState) : StoreState :=
  { db with token := some ⟨token, now + ttlSeconds⟩ }

/-- Modelled from the spec: `clearExpiredTokens()` purges the stored token
exactly when it has expired; an unexpired token is left in place
(spec 4.2). -/
def clearExpiredTokens (now : Nat) (db : StoreState) : StoreState :=
  match db.token with
  | none => db
  | some tk => if tk.expiresAt ≤ now then { db with token := none } else db

/-- Modelled from the spec: `logEvent(kind, actor, metadata)` appends an
entry to the event log, fire-and-forget, never throwing (spec 4.2); the
log is newest-first. -/
def logEvent (kind : EventKind) (actor : String) (metadata : List (String × String))
    (db : StoreState) : StoreState :=
  { db with events := ⟨kind, actor, metadata⟩ :: db.events }

/-- Number of logged events of a given kind. -/
def countEvents (kind : EventKind) (events : List EventEntry) : Nat :=
  events.countP (fun e => e.kind = kind)

/-- Claims carried by an issued token, as built by `startSession`:
`{userId: userData.id || 'anonymous', username, credentialId, timestamp}`. -/
structure TokenClaims where
  userId : String
  username : String
  credentialId : String
  timestamp : Nat
deriving DecidableEq, Repr

/-- Modelled from the spec: the Token Codec (`validateJWT` / `generateJWT`
of `src/utils/jwt.js`, absent from `src/`).  `validate token now` returns
false if the token is malformed, the signature check fails, or `now`
exceeds the token's validity window; it never throws (spec 4.1).
`genJWT claims` produces the opaque signed token string.  Both are kept
abstract: theorems quantify over every codec satisfying the contract. -/
structure Config where
  validate : String → Nat → Bool
  genJWT : TokenClaims → String

/-- The user record held by the session (`{id, username, displayName}`);
`id` is optional, mirroring `userData.id || 'anonymous'` in the source. -/
structure User where
  id : Option String
  username : String
  displayName : String
deriving DecidableEq, Repr

/-- The in-memory session state owned by `useSession()`: the six refs
`isAuthenticated`, `sessionUser`, `sessionStart`, `sessionTimeout`
(seconds, default 900), `inactivityTimer` (the pending deadline of the
single-shot timer, or `none`), `sessionToken`. -/
structure SessionState where
  isAuthenticated : Bool
  sessionUser : Option User
  sessionStart : Option Nat
  sessionTimeout : Nat
  inactivityTimer : Option Nat
  sessionToken : Option String
deriving DecidableEq, Repr

/-- The state the composable starts from: everything empty, timeout 900. -/
def initialSession : SessionState :=
  { isAuthenticated := false
    sessionUser := none
    sessionStart := none
    sessionTimeout := 900
    inactivityTimer := none
    sessionToken := none }

/-- `startInactivityTimer` of `useSession.js`: clears any pending timer and
arms a single-shot deadline `sessionTimeout` seconds from now. -/
def startInactivityTimer (now : Nat) (s : SessionState) : SessionState :=
  { s with inactivityTimer := some (now + s.sessionTimeout) }

/-- `getSessionDuration` of `useSession.js`: seconds elapsed since
`sessionStart`, or 0 when no session start is recorded. -/
def getSessionDuration (now : Nat) (s : SessionState) : Nat :=
  match s.sessionStart with
  | none => 0
  | some t => now - t

/-- `initSession` of `useSession.js`: fetch a token from the store; if one
is present and the codec validates it, record it, mark the session
authenticated, set `sessionStart` to now, log a `SESSION_START` event with
a redacted token excerpt, re-arm the inactivity timer and return true;
otherwise return false with the session state untouched.  Returns
(new session state, new store state, returned boolean). -/
def initSession (cfg : Config) (now : Nat) (s : SessionState) (db : StoreState) :
    SessionState × StoreState × Bool :=
  match getValidToken now db with
  | (some token, db1) =>
    if cfg.validate token now then
      let s1 := { s with sessionToken := some token
                         isAuthenticated := true
                         sessionStart := some now }
      let db2 := logEvent .SESSION_START "system"
        [("token", token.take 10 ++ "...")] db1
      (startInactivityTimer now s1, db2, true)
    else (s, db1, false)
  | (none, db1) => (s, db1, false)

/-- `startSession(userData, credentialId)` of `useSession.js`: issue a
fresh token from the claims, persist it with the current timeout, set the
whole session state, log `SESSION_START` with the username, credentialId
and user agent, arm the inactivity timer, and return the token. -/
def startSession (cfg : Config) (now : Nat) (ua : String) (userData : User)
    (credentialId : String) (s : SessionState) (db : StoreState) :
    SessionState × StoreState × String :=
  let token := cfg.genJWT
    ⟨userData.id.getD "anonymous", userData.username, credentialId, now⟩
  let db1 := storeToken now token s.sessionTimeout db
  let s1 := { s with sessionToken := some token
                     isAuthenticated := true
                     sessionUser := some userData
                     sessionStart := some now }
  let db2 := logEvent .SESSION_START userData.username
    [("credentialId", credentialId), ("userAgent", ua)] db1
  (startInactivityTimer now s1, db2, token)

/-- `endSession(reason)` of `useSession.js` (the source defaults `reason`
to `'user_logout'` at the call site): if currently authenticated, log
`SESSION_END` with the reason and duration; cancel the inactivity timer;
clear all session fields unconditionally; purge expired tokens from the
store. -/
def endSession (reason : String) (now : Nat) (s : SessionState) (db : StoreState) :
    SessionState × StoreState :=
  let db1 :=
    if s.isAuthenticated then
      logEvent .SESSION_END ((s.sessionUser.map User.username).getD "unknown")
        [("reason", reason), ("duration", toString (getSessionDuration now s))] db
    else db
  let s1 := { s with inactivityTimer := none
                     isAuthenticated := false
                     sessionUser := none
                     sessionStart := none
                     sessionToken := none }
  (s1, clearExpiredTokens now db1)

/-- `updateSessionTimeout(newTimeout)` of `useSession.js`: set the new
window and, if a session is active, re-arm the timer immediately. -/
def updateSessionTimeout (newTimeout : Nat) (now : Nat) (s : SessionState) : SessionState :=
  let s1 := { s with sessionTimeout := newTimeout }
  if s1.isAuthenticated then startInactivityTimer now s1 else s1

/-- `resetInactivityTimer` of `useSession.js`: re-arm only when
authenticated. -/
def resetInactivityTimer (now : Nat) (s : SessionState) : SessionState :=
  if s.isAuthenticated then startInactivityTimer now s else s

/-- `RouteType` of `src/middleware/auth.js`. -/
inductive RouteType where
  | PUBLIC
  | PROTECTED
  | AUTH_ONLY
deriving DecidableEq, Repr

/-- The static `routeConfig` table of `src/middleware/auth.js`, as a
partial lookup (`routeConfig[path]` is `undefined` off the table). -/
def routeConfigLookup (path : String) : Option RouteType :=
  if path = "/" then some .PUBLIC
  else if path = "/auth" then some .AUTH_ONLY
  else if path = "/dashboard" then some .PROTECTED
  else if path = "/security" then some .PROTECTED
  else if path = "/profile" then some .PROTECTED
  else none

/-- `requiresAuthentication(path)` of `auth.js`: the route type, defaulted
to `PUBLIC` for unknown paths, equals `PROTECTED`. -/
def requiresAuthentication (path : String) : Bool :=
  (routeConfigLookup path).getD .PUBLIC = .PROTECTED

/-- `isAuthenticationRoute(path)` of `auth.js`: the route type, defaulted
to `PUBLIC` for unknown paths, equals `AUTH_ONLY`. -/
def isAuthenticationRoute (path : String) : Bool :=
  (routeConfigLookup path).getD .PUBLIC = .AUTH_ONLY

/-- `AuthMiddleware.checkAuthentication` of `auth.js`: fetch a token from
the store; absent token means false; a token failing codec validation
means clearing expired tokens and false; otherwise true.  (The source's
`try/catch` is unreachable under the spec's never-throwing store
contract.) -/
def checkAuthentication (cfg : Config) (now : Nat) (db : StoreState) : Bool × StoreState :=
  match getValidToken now db with
  | (none, db1) => (false, db1)
  | (some t, db1) =>
    if cfg.validate t now then (true, db1)
    else (false, clearExpiredTokens now db1)

/-- `AuthMiddleware.logRouteAccess` of `auth.js`: best-effort
`ROUTE_ACCESS` event with the path, the authentication flag and a
timestamp, actor `authenticated`/`anonymous`. -/
def logRouteAccess (now : Nat) (path : String) (isAuth : Bool) (db : StoreState) : StoreState :=
  logEvent .ROUTE_ACCESS (if isAuth then "authenticated" else "anonymous")
    [("path", path), ("authenticated", toString isAuth), ("timestamp", toString now)] db

/-- The navigation decision of a guard: let the navigation proceed, or
redirect it (`next()` vs `next(path)` in the source). -/
inductive Decision where
  | ALLOW
  | REDIRECT (path : String)
deriving DecidableEq, Repr

/-- The `router.beforeEach` interceptor installed by
`AuthMiddleware.setupInterceptors` (`auth.js` lines 29-57): compute
`requiresAuth` / `isAuthRoute` from the route table, check authentication
against the store, then (1) protected and unauthenticated: log one
`UNAUTHORIZED_ACCESS` with path and user agent and redirect to `/auth`;
(2) auth-only route while authenticated: redirect to `/dashboard`;
(3) otherwise log the route access and allow. -/
def authMiddlewareEvaluate (cfg : Config) (now : Nat) (ua : String) (path : String)
    (db : StoreState) : Decision × StoreState :=
  let requiresAuth := requiresAuthentication path
  let isAuthRoute := isAuthenticationRoute path
  match checkAuthentication cfg now db with
  | (isAuth, db1) =>
    if requiresAuth && !isAuth then
      (.REDIRECT "/auth",
        logEvent .UNAUTHORIZED_ACCESS "system" [("path", path), ("userAgent", ua)] db1)
    else if isAuthRoute && isAuth then
      (.REDIRECT "/dashboard", db1)
    else
      (.ALLOW, logRouteAccess now path isAuth db1)

/-- The `router.beforeEach` hook installed by `useRouteGuard`
(`useSession.js` lines 208-232): `requiresAuth` comes from the matched
route records' `meta.requiresAuth` flag (passed here as a boolean); if the
route requires auth and the session is not authenticated, attempt
`initSession()`; when that fails redirect to `/auth`, otherwise allow. -/
def useRouteGuardEvaluate (cfg : Config) (now : Nat) (requiresAuth : Bool)
    (s : SessionState) (db : StoreState) : Decision × SessionState × StoreState :=
  if requiresAuth && !s.isAuthenticated then
    match initSession cfg now s db with
    | (s1, db1, ok) =>
      if ok then (.ALLOW, s1, db1) else (.REDIRECT "/auth", s1, db1)
  else (.ALLOW, s, db)

/-- `useRouteProtection.checkRouteAccess(path)` of `auth.js` (lines
179-206): when `routeConfig[path] === PROTECTED`, fetch a token and
validate it, throwing `'Acesso nao autorizado'` when no valid token is
available; in every other case resolve to `true`. -/
def checkRouteAccess (cfg : Config) (now : Nat) (path : String) (db : StoreState) :
    Except String (Bool × StoreState) :=
  if routeConfigLookup path = some .PROTECTED then
    match getValidToken now db with
    | (tok, db1) =>
      let isValid := match tok with
        | some t => cfg.validate t now
        | none => false
      if isValid then .ok (true, db1) else .error "Acesso nao autorizado"
  else .ok (true, db)

/-- True exactly when `checkRouteAccess`'s own check would find a valid
token: the store yields an unexpired token and the codec validates it. -/
def validTokenAvailable (cfg : Config) (now : Nat) (db : StoreState) : Bool :=
  match (getValidToken now db).1 with
  | some t => cfg.validate t now
  | none => false

/-- Whether an `Except` result is the raised (error) case. -/
def isRaised {ε α : Type} : Except ε α → Bool
  | .error _ => true
  | .ok _ => false

/-- A token the session may legitimately hold: it passed codec validation
at some instant, or it was freshly issued by the codec. -/
def TokenOk (cfg : Config) (t : String) : Prop :=
  (∃ n, cfg.validate t n = true) ∨ (∃ c, cfg.genJWT c = t)

/-- Case analysis on `initSession`: the session state is either returned
untouched, or fully transitioned to the authenticated shape (token set,
flag set, start stamped, timer armed) for a token the codec validated
now. -/
theorem initSession_state_cases (cfg : Config) (now : Nat) (s : SessionState)
    (db : StoreState) :
    (initSession cfg now s db).1 = s ∨
    ∃ t, cfg.validate t now = true ∧
      (initSession cfg now s db).1 =
        { s with sessionToken := some t
                 isAuthenticated := true
                 sessionStart := some now
                 inactivityTimer := some (now + s.sessionTimeout) } := by
  unfold initSession
  rcases hg : getValidToken now db with ⟨tok, db1⟩
  cases tok with
  | none => left; rfl
  | some t =>
    by_cases hv : cfg.validate t now
    · right
      exact ⟨t, hv, by simp only [hv, if_true]; rfl⟩
    · left
      simp [hv]

/-- `clearExpiredTokens` never touches the event log. -/
theorem clearExpiredTokens_events (now : Nat) (db : StoreState) :
    (clearExpiredTokens now db).events = db.events := by
  unfold clearExpiredTokens
  rcases db with ⟨tok, evs⟩
  cases tok with
  | none => rfl
  | some tk => dsimp only; split <;> rfl

/-- `getValidToken` never touches the event log. -/
theorem getValidToken_events (now : Nat) (db : StoreState) :
    (getValidToken now db).2.events = db.events := by
  unfold getValidToken
  rcases db with ⟨tok, evs⟩
  cases tok with
  | none => rfl
  | some tk => dsimp only; split <;> rfl

/-- `checkAuthentication` never touches the event log. -/
theorem checkAuthentication_events (cfg : Config) (now : Nat) (db : StoreState) :
    (checkAuthentication cfg now db).2.events = db.events := by
  unfold checkAuthentication
  rcases hg : getValidToken now db with ⟨tok, db1⟩
  have h1 : db1.events = db.events := by
    have := getValidToken_events now db
    rw [hg] at this
    exact this
  cases tok with
  | none => exact h1
  | some t =>
    dsimp only
    split
    · exact h1
    · rw [clearExpiredTokens_events, h1]

/-- The session states reachable by any finite sequence of `initSession`,
`startSession`, `endSession` calls from the composable's initial state,
with arbitrary instants and store states at each call. -/
inductive Reachable (cfg : Config) : SessionState → Prop where
  | init : Reachable cfg initialSession
  | stepInit (now : Nat) (db : StoreState) {s : SessionState} :
      Reachable cfg s → Reachable cfg (initSession cfg now s db).1
  | stepStart (now : Nat) (ua : String) (u : User) (cid : String) (db : StoreState)
      {s : SessionState} :
      Reachable cfg s → Reachable cfg (startSession cfg now ua u cid s db).1
  | stepEnd (reason : String) (now : Nat) (db : StoreState) {s : SessionState} :
      Reachable cfg s → Reachable cfg (endSession reason now s db).1

/-- C2: for every reachable session state after any sequence of
`initSession`, `startSession`, `endSession` calls, `isAuthenticated` is
true iff a token is present (and that token passed validation at its last
check or was freshly issued), and `sessionUser` is non-null only when
`isAuthenticated` is true. -/
theorem c2_session_invariant (cfg : Config) (s : SessionState) (h : Reachable cfg s) :
    (s.isAuthenticated = true ↔ s.sessionToken.isSome = true) ∧
    (s.sessionUser.isSome = true → s.isAuthenticated = true) ∧
    (∀ t, s.sessionToken = some t → TokenOk cfg t) := by
  induction h with
  | init => simp [initialSession]
  | stepInit now db h ih =>
    rcases initSession_state_cases cfg now _ db with heq | ⟨t, hv, heq⟩
    · rw [heq]; exact ih
    · rw [heq]
      refine ⟨by simp, by simp, ?_⟩
      intro t' ht'
      simp only [Option.some.injEq] at ht'
      exact Or.inl ⟨now, ht' ▸ hv⟩
  | stepStart now ua u cid db h ih =>
    refine ⟨by simp [startSession, startInactivityTimer],
            by simp [startSession, startInactivityTimer], ?_⟩
    intro t ht
    simp only [startSession, startInactivityTimer, Option.some.injEq] at ht
    exact Or.inr ⟨_, ht⟩
  | stepEnd reason now db h ih =>
    refine ⟨by simp [endSession], by simp [endSession], ?_⟩
    intro t ht
    simp [endSession] at ht

/-- C5: every Session Manager operation either fully transitions the
session state or leaves it exactly as before the call: `initSession`
returns it untouched or moves it to the complete authenticated shape
(never, e.g., the flag set without the timer armed); `startSession` always
applies the complete transition; `endSession` always applies the complete
clear. -/
theorem c5_atomic_transitions (cfg : Config) (now : Nat) (reason ua cid : String)
    (u : User) (s : SessionState) (db : StoreState) :
    ((initSession cfg now s db).1 = s ∨
      ∃ t, (initSession cfg now s db).1 =
        { s with sessionToken := some t
                 isAuthenticated := true
                 sessionStart := some now
                 inactivityTimer := some (now + s.sessionTimeout) }) ∧
    ((startSession cfg now ua u cid s db).1 =
      { s with sessionToken :=
                 some (cfg.genJWT ⟨u.id.getD "anonymous", u.username, cid, now⟩)
               isAuthenticated := true
               sessionUser := some u
               sessionStart := some now
               inactivityTimer := some (now + s.sessionTimeout) }) ∧
    ((endSession reason now s db).1 =
      { s with inactivityTimer := none
               isAuthenticated := false
               sessionUser := none
               sessionStart := none
               sessionToken := none }) := by
  refine ⟨?_, rfl, rfl⟩
  rcases initSession_state_cases cfg now s db with heq | ⟨t, _, heq⟩
  · exact Or.inl heq
  · exact Or.inr ⟨t, heq⟩

/-- C6: calling `endSession` immediately again produces observable session
state identical to that after the first call, adds no further event-log
entry (the second call finds the session unauthenticated, so it logs no
`SESSION_END`), and — being a total function of the modelled
never-throwing store — does not throw. -/
theorem c6_endSession_idempotent (r1 r2 : String) (n1 n2 : Nat) (s : SessionState)
    (db : StoreState) :
    (endSession r2 n2 (endSession r1 n1 s db).1 (endSession r1 n1 s db).2).1 =
      (endSession r1 n1 s db).1 ∧
    (endSession r2 n2 (endSession r1 n1 s db).1 (endSession r1 n1 s db).2).2.events =
      (endSession r1 n1 s db).2.events := by
  cases s
  exact ⟨rfl, clearExpiredTokens_events n2 _⟩

/-- C10: `endSession` clears exactly the authenticated flag, user, start
time, token and pending inactivity timer, leaving `sessionTimeout`
unchanged; in particular a timeout set by `updateSessionTimeout` survives
`endSession`. -/
theorem c10_endSession_frame (reason : String) (now : Nat) (s : SessionState)
    (db : StoreState) :
    (endSession reason now s db).1.sessionTimeout = s.sessionTimeout ∧
    (endSession reason now s db).1.isAuthenticated = false ∧
    (endSession reason now s db).1.sessionUser = none ∧
    (endSession reason now s db).1.sessionStart = none ∧
    (endSession reason now s db).1.sessionToken = none ∧
    (endSession reason now s db).1.inactivityTimer = none ∧
    ∀ t n0, (endSession reason now (updateSessionTimeout t n0 s) db).1.sessionTimeout = t := by
  refine ⟨rfl, rfl, rfl, rfl, rfl, rfl, ?_⟩
  intro t n0
  unfold updateSessionTimeout
  dsimp only
  split <;> rfl

/-- A codec that accepts every token; issued tokens are
`username:credentialId`. -/
def cfgAccept : Config :=
  ⟨fun _ _ => true, fun c => c.username ++ ":" ++ c.credentialId⟩

/-- A codec that rejects every token (e.g. the signature check fails, or
the token's own validity window has already passed). -/
def cfgReject : Config :=
  ⟨fun _ _ => false, fun c => c.username ++ ":" ++ c.credentialId⟩

/-- A sample registered user. -/
def alice : User := ⟨some "u1", "alice", "Alice"⟩

/-- A store holding no token and no events. -/
def emptyStore : StoreState := ⟨none, []⟩

/-- A store holding one token that expires at instant 1000, and no
events. -/
def storeWithToken : StoreState := ⟨some ⟨"tok-abcdefghij", 1000⟩, []⟩

/-- A session authenticated since instant 0 for `alice`, holding the
stored token, timer armed at 900. -/
def authedSession : SessionState :=
  ⟨true, some alice, some 0, 900, some 900, some "tok-abcdefghij"⟩

/-- Logging an event of kind `k` increments the count of kind-`k`
events by one. -/
theorem countEvents_logEvent_same (k : EventKind) (a : String)
    (m : List (String × String)) (db : StoreState) :
    countEvents k (logEvent k a m db).events = countEvents k db.events + 1 := by
  unfold countEvents logEvent
  simp [List.countP_cons]

/-- Logging an event of a different kind leaves the count unchanged. -/
theorem countEvents_logEvent_other (k k' : EventKind) (a : String)
    (m : List (String × String)) (db : StoreState) (h : ¬k = k') :
    countEvents k' (logEvent k a m db).events = countEvents k' db.events := by
  unfold countEvents logEvent
  simp [List.countP_cons, h]

/-- A failing `initSession` leaves the event log unchanged. -/
theorem initSession_events_of_false (cfg : Config) (now : Nat) (s : SessionState)
    (db : StoreState) (h : (initSession cfg now s db).2.2 = false) :
    (initSession cfg now s db).2.1.events = db.events := by
  unfold initSession at h ⊢
  rcases hg : getValidToken now db with ⟨tok, db1⟩
  rw [hg] at h
  have h1 : db1.events = db.events := by
    have := getValidToken_events now db
    rw [hg] at this
    exact this
  cases tok with
  | none => exact h1
  | some t =>
    by_cases hv : cfg.validate t now
    · simp [hv] at h
    · simp only [hv]
      exact h1

/-- C2 witness: the invariant instantiated at the concrete reachable
state obtained by one `startSession` from the initial state. -/
theorem c2_witness :
    ((startSession cfgAccept 0 "UA" alice "cred1" initialSession emptyStore).1.isAuthenticated = true ↔
      (startSession cfgAccept 0 "UA" alice "cred1" initialSession emptyStore).1.sessionToken.isSome = true) ∧
    ((startSession cfgAccept 0 "UA" alice "cred1" initialSession emptyStore).1.sessionUser.isSome = true →
      (startSession cfgAccept 0 "UA" alice "cred1" initialSession emptyStore).1.isAuthenticated = true) ∧
    (∀ t, (startSession cfgAccept 0 "UA" alice "cred1" initialSession emptyStore).1.sessionToken = some t →
      TokenOk cfgAccept t) :=
  c2_session_invariant cfgAccept _
    (Reachable.stepStart 0 "UA" alice "cred1" emptyStore Reachable.init)

/-- C3 counterexample: with the session already authenticated and the
store still holding a valid token, `initSession` does return true, but it
is not a no-op: it logs a new `SESSION_START` event (the count rises from
0 to 1) and rewrites `sessionStart` from instant 0 to the current
instant 5. -/
theorem c3_counterexample :
    authedSession.isAuthenticated = true ∧
    (initSession cfgAccept 5 authedSession storeWithToken).2.2 = true ∧
    countEvents .SESSION_START storeWithToken.events = 0 ∧
    countEvents .SESSION_START
      (initSession cfgAccept 5 authedSession storeWithToken).2.1.events = 1 ∧
    authedSession.sessionStart = some 0 ∧
    (initSession cfgAccept 5 authedSession storeWithToken).1.sessionStart = some 5 :=
  ⟨rfl, rfl, rfl, rfl, rfl, rfl⟩

/-- C3 (amended): calling `initSession` while already authenticated
re-runs the resume logic rather than being a no-op: when it returns false
the session state is unchanged, and when it returns true the session is
(re)authenticated with `sessionStart` reset to the current instant and one
more `SESSION_START` event logged. -/
theorem c3_initSession_reauthenticates (cfg : Config) (now : Nat) (s : SessionState)
    (db : StoreState) (h : s.isAuthenticated = true) :
    ((initSession cfg now s db).2.2 = false → (initSession cfg now s db).1 = s) ∧
    ((initSession cfg now s db).2.2 = true →
      (initSession cfg now s db).1.isAuthenticated = true ∧
      (initSession cfg now s db).1.sessionStart = some now ∧
      countEvents .SESSION_START (initSession cfg now s db).2.1.events =
        countEvents .SESSION_START db.events + 1) := by
  unfold initSession
  rcases hg : getValidToken now db with ⟨tok, db1⟩
  have h1 : db1.events = db.events := by
    have := getValidToken_events now db
    rw [hg] at this
    exact this
  cases tok with
  | none => exact ⟨fun _ => rfl, fun hok => by simp at hok⟩
  | some t =>
    by_cases hv : cfg.validate t now
    · simp only [hv, if_true]
      refine ⟨fun hok => by simp at hok, fun _ => ⟨rfl, rfl, ?_⟩⟩
      show countEvents .SESSION_START
        (logEvent .SESSION_START "system" [("token", t.take 10 ++ "...")] db1).events =
        countEvents .SESSION_START db.events + 1
      rw [countEvents_logEvent_same]
      unfold countEvents
      rw [h1]
    · simp only [hv, if_false]
      exact ⟨fun _ => rfl, fun hok => by simp at hok⟩

/-- C3 witness: the amended theorem applied at an authenticated session
whose store token is still valid. -/
theorem c3_witness :
    (initSession cfgAccept 5 authedSession storeWithToken).1.isAuthenticated = true ∧
    (initSession cfgAccept 5 authedSession storeWithToken).1.sessionStart = some 5 ∧
    countEvents .SESSION_START
      (initSession cfgAccept 5 authedSession storeWithToken).2.1.events =
      countEvents .SESSION_START storeWithToken.events + 1 :=
  (c3_initSession_reauthenticates cfgAccept 5 authedSession storeWithToken rfl).2 rfl

/-- C1 counterexample: the guard that actually attempts `initSession()`
(the `useRouteGuard` hook) — navigating to an auth-requiring route while
unauthenticated with an empty store: `initSession` fails and the decision
is `REDIRECT('/auth')`, but zero `UNAUTHORIZED_ACCESS` events are logged,
not exactly one. -/
theorem c1_counterexample :
    initialSession.isAuthenticated = false ∧
    (initSession cfgAccept 0 initialSession emptyStore).2.2 = false ∧
    (useRouteGuardEvaluate cfgAccept 0 true initialSession emptyStore).1 = .REDIRECT "/auth" ∧
    countEvents .UNAUTHORIZED_ACCESS
      (useRouteGuardEvaluate cfgAccept 0 true initialSession emptyStore).2.2.events = 0 :=
  ⟨rfl, rfl, rfl, rfl⟩

/-- C1 (amended): the two behaviours live in two different guards.  The
`AuthMiddleware` interceptor, on a `PROTECTED` path with its own store
check failing, redirects to `/auth` and logs exactly one
`UNAUTHORIZED_ACCESS` event with the path and user agent — but it never
attempts `initSession()`.  The `useRouteGuard` hook does attempt
`initSession()` and redirects to `/auth` when that fails — but logs no
`UNAUTHORIZED_ACCESS` event. -/
theorem c1_guard_split (cfg : Config) (now : Nat) (ua path : String)
    (s : SessionState) (db : StoreState) :
    (requiresAuthentication path = true → (checkAuthentication cfg now db).1 = false →
      (authMiddlewareEvaluate cfg now ua path db).1 = .REDIRECT "/auth" ∧
      (authMiddlewareEvaluate cfg now ua path db).2.events =
        ⟨.UNAUTHORIZED_ACCESS, "system", [("path", path), ("userAgent", ua)]⟩ :: db.events ∧
      countEvents .UNAUTHORIZED_ACCESS (authMiddlewareEvaluate cfg now ua path db).2.events =
        countEvents .UNAUTHORIZED_ACCESS db.events + 1) ∧
    (s.isAuthenticated = false → (initSession cfg now s db).2.2 = false →
      (useRouteGuardEvaluate cfg now true s db).1 = .REDIRECT "/auth" ∧
      countEvents .UNAUTHORIZED_ACCESS
        (useRouteGuardEvaluate cfg now true s db).2.2.events =
        countEvents .UNAUTHORIZED_ACCESS db.events) := by
  constructor
  · intro hreq hauth
    unfold authMiddlewareEvaluate
    rcases hc : checkAuthentication cfg now db with ⟨isAuth, db1⟩
    rw [hc] at hauth
    dsimp only at hauth
    subst hauth
    have hev : db1.events = db.events := by
      have := checkAuthentication_events cfg now db
      rw [hc] at this
      exact this
    dsimp only
    rw [hreq]
    refine ⟨rfl, ?_, ?_⟩
    · show (logEvent .UNAUTHORIZED_ACCESS "system" [("path", path), ("userAgent", ua)] db1).events = _
      unfold logEvent
      rw [hev]
    · show countEvents _ (logEvent .UNAUTHORIZED_ACCESS "system" [("path", path), ("userAgent", ua)] db1).events = _
      rw [countEvents_logEvent_same]
      unfold countEvents
      rw [hev]
  · intro hs hok
    have hev : (initSession cfg now s db).2.1.events = db.events :=
      initSession_events_of_false cfg now s db hok
    unfold useRouteGuardEvaluate
    rcases hi : initSession cfg now s db with ⟨s1, db1, ok⟩
    rw [hi] at hok hev
    dsimp only at hok hev ⊢
    subst hok
    rw [hs]
    refine ⟨rfl, ?_⟩
    show countEvents EventKind.UNAUTHORIZED_ACCESS db1.events =
      countEvents EventKind.UNAUTHORIZED_ACCESS db.events
    unfold countEvents
    rw [hev]

/-- C1 witness: both halves of the amended claim at a concrete protected
navigation (`/dashboard`, empty store, unauthenticated session). -/
theorem c1_witness :
    ((authMiddlewareEvaluate cfgAccept 0 "UA" "/dashboard" emptyStore).1 = .REDIRECT "/auth" ∧
      (authMiddlewareEvaluate cfgAccept 0 "UA" "/dashboard" emptyStore).2.events =
        ⟨.UNAUTHORIZED_ACCESS, "system", [("path", "/dashboard"), ("userAgent", "UA")]⟩ :: emptyStore.events ∧
      countEvents .UNAUTHORIZED_ACCESS
        (authMiddlewareEvaluate cfgAccept 0 "UA" "/dashboard" emptyStore).2.events =
        countEvents .UNAUTHORIZED_ACCESS emptyStore.events + 1) ∧
    ((useRouteGuardEvaluate cfgAccept 0 true initialSession emptyStore).1 = .REDIRECT "/auth" ∧
      countEvents .UNAUTHORIZED_ACCESS
        (useRouteGuardEvaluate cfgAccept 0 true initialSession emptyStore).2.2.events =
        countEvents .UNAUTHORIZED_ACCESS emptyStore.events) :=
  ⟨(c1_guard_split cfgAccept 0 "UA" "/dashboard" initialSession emptyStore).1 rfl rfl,
   (c1_guard_split cfgAccept 0 "UA" "/dashboard" initialSession emptyStore).2 rfl rfl⟩

/-- C4 counterexample: navigating to `/auth` while authenticated yields
`REDIRECT('/dashboard')` with no `ROUTE_ACCESS` event logged at all, so
`ROUTE_ACCESS` is not logged on every evaluation. -/
theorem c4_counterexample :
    (authMiddlewareEvaluate cfgAccept 5 "UA" "/auth" storeWithToken).1 = .REDIRECT "/dashboard" ∧
    countEvents .ROUTE_ACCESS
      (authMiddlewareEvaluate cfgAccept 5 "UA" "/auth" storeWithToken).2.events = 0 :=
  ⟨rfl, rfl⟩

/-- C4 (amended): the interceptor logs a `ROUTE_ACCESS` event carrying the
path and the authentication state exactly when the decision is `ALLOW`;
redirect decisions log no `ROUTE_ACCESS` event. -/
theorem c4_route_access_only_on_allow (cfg : Config) (now : Nat) (ua path : String)
    (db : StoreState) :
    ((authMiddlewareEvaluate cfg now ua path db).1 = .ALLOW →
      (authMiddlewareEvaluate cfg now ua path db).2.events =
        ⟨.ROUTE_ACCESS,
         (if (checkAuthentication cfg now db).1 then "authenticated" else "anonymous"),
         [("path", path), ("authenticated", toString (checkAuthentication cfg now db).1),
          ("timestamp", toString now)]⟩ :: db.events) ∧
    ((authMiddlewareEvaluate cfg now ua path db).1 ≠ .ALLOW →
      countEvents .ROUTE_ACCESS (authMiddlewareEvaluate cfg now ua path db).2.events =
        countEvents .ROUTE_ACCESS db.events) := by
  unfold authMiddlewareEvaluate
  rcases hc : checkAuthentication cfg now db with ⟨isAuth, db1⟩
  have hev : db1.events = db.events := by
    have := checkAuthentication_events cfg now db
    rw [hc] at this
    exact this
  dsimp only
  by_cases h1 : (requiresAuthentication path && !isAuth) = true
  · rw [if_pos h1]
    refine ⟨fun hd => by simp at hd, fun _ => ?_⟩
    rw [countEvents_logEvent_other _ _ _ _ _ (by intro h; cases h)]
    unfold countEvents
    rw [hev]
  · rw [if_neg h1]
    by_cases h2 : (isAuthenticationRoute path && isAuth) = true
    · rw [if_pos h2]
      refine ⟨fun hd => by simp at hd, fun _ => ?_⟩
      unfold countEvents
      rw [hev]
    · rw [if_neg h2]
      refine ⟨fun _ => ?_, fun hd => by simp at hd⟩
      show (logRouteAccess now path isAuth db1).events = _
      unfold logRouteAccess logEvent
      rw [hev]

/-- C4 witness: the amended claim at two concrete evaluations, one
allowed (`/` on an empty store) and one redirected (`/dashboard` on an
empty store). -/
theorem c4_witness :
    ((authMiddlewareEvaluate cfgAccept 5 "UA" "/" emptyStore).2.events =
      ⟨.ROUTE_ACCESS,
       (if (checkAuthentication cfgAccept 5 emptyStore).1 then "authenticated" else "anonymous"),
       [("path", "/"), ("authenticated", toString (checkAuthentication cfgAccept 5 emptyStore).1),
        ("timestamp", toString 5)]⟩ :: emptyStore.events) ∧
    (countEvents .ROUTE_ACCESS
      (authMiddlewareEvaluate cfgAccept 5 "UA" "/dashboard" emptyStore).2.events =
      countEvents .ROUTE_ACCESS emptyStore.events) :=
  ⟨(c4_route_access_only_on_allow cfgAccept 5 "UA" "/" emptyStore).1 rfl,
   (c4_route_access_only_on_allow cfgAccept 5 "UA" "/dashboard" emptyStore).2 (by decide)⟩

/-- C7: navigating to `/auth` while authenticated redirects to
`/dashboard`; navigating to `/` is always allowed, authenticated or not;
any path absent from the route table is treated as `PUBLIC` and allowed
regardless of authentication. -/
theorem c7_guard_decisions (cfg : Config) (now : Nat) (ua path : String)
    (db : StoreState) :
    ((checkAuthentication cfg now db).1 = true →
      (authMiddlewareEvaluate cfg now ua "/auth" db).1 = .REDIRECT "/dashboard") ∧
    ((authMiddlewareEvaluate cfg now ua "/" db).1 = .ALLOW) ∧
    (routeConfigLookup path = none →
      (authMiddlewareEvaluate cfg now ua path db).1 = .ALLOW) := by
  refine ⟨?_, ?_, ?_⟩
  · intro h
    unfold authMiddlewareEvaluate
    rcases hc : checkAuthentication cfg now db with ⟨isAuth, db1⟩
    rw [hc] at h
    dsimp only at h ⊢
    subst h
    rfl
  · unfold authMiddlewareEvaluate
    rcases hc : checkAuthentication cfg now db with ⟨isAuth, db1⟩
    cases isAuth <;> rfl
  · intro hnone
    have h1 : requiresAuthentication path = false := by
      unfold requiresAuthentication
      rw [hnone]
      rfl
    have h2 : isAuthenticationRoute path = false := by
      unfold isAuthenticationRoute
      rw [hnone]
      rfl
    unfold authMiddlewareEvaluate
    rcases hc : checkAuthentication cfg now db with ⟨isAuth, db1⟩
    simp only [h1, h2, Bool.false_and, if_false]
    rfl

/-- C7 witness: the decisions at concrete inputs — `/auth` while the
store authenticates, and an off-table path on the same store. -/
theorem c7_witness :
    (authMiddlewareEvaluate cfgAccept 5 "UA" "/auth" storeWithToken).1 = .REDIRECT "/dashboard" ∧
    (authMiddlewareEvaluate cfgAccept 5 "UA" "/" storeWithToken).1 = .ALLOW ∧
    (authMiddlewareEvaluate cfgAccept 5 "UA" "/nope" storeWithToken).1 = .ALLOW :=
  ⟨(c7_guard_decisions cfgAccept 5 "UA" "/nope" storeWithToken).1 rfl,
   (c7_guard_decisions cfgAccept 5 "UA" "/nope" storeWithToken).2.1,
   (c7_guard_decisions cfgAccept 5 "UA" "/nope" storeWithToken).2.2 rfl⟩

/-- C8: `checkRouteAccess(path)` raises its access-denied condition
exactly when the path's policy is `PROTECTED` and no valid token is
available; for `PUBLIC`, `AUTH_ONLY`, unknown paths, or with a valid
token present, it resolves successfully. -/
theorem c8_checkRouteAccess_raises_iff (cfg : Config) (now : Nat) (path : String)
    (db : StoreState) :
    isRaised (checkRouteAccess cfg now path db) = true ↔
      (routeConfigLookup path = some .PROTECTED ∧
       validTokenAvailable cfg now db = false) := by
  unfold checkRouteAccess validTokenAvailable
  by_cases hp : routeConfigLookup path = some .PROTECTED
  · rw [if_pos hp]
    rcases hg : getValidToken now db with ⟨tok, db1⟩
    dsimp only
    cases tok with
    | none => simp [hp, isRaised]
    | some t =>
      by_cases hv : cfg.validate t now
      · simp [hp, hv, isRaised]
      · simp [hp, hv, isRaised]
  · rw [if_neg hp]
    simp [hp, isRaised]

/-- `logEvent` never touches the stored token. -/
theorem logEvent_token (k : EventKind) (a : String) (m : List (String × String))
    (db : StoreState) : (logEvent k a m db).token = db.token := rfl

/-- `clearExpiredTokens` keeps a token that has not yet expired. -/
theorem clearExpiredTokens_token_keep (now : Nat) (db : StoreState) (tk : StoredToken)
    (h : db.token = some tk) (hlt : now < tk.expiresAt) :
    (clearExpiredTokens now db).token = some tk := by
  unfold clearExpiredTokens
  rw [h]
  dsimp only
  rw [if_neg (by omega)]
  exact h

/-- C9 counterexample: the store holds an unexpired token, yet with a
codec that rejects it (e.g. the token's own validity window has passed),
`endSession` followed by `initSession` does not re-establish
authentication: `initSession` returns false and the session stays
unauthenticated. -/
theorem c9_counterexample :
    storeWithToken.token = some ⟨"tok-abcdefghij", 1000⟩ ∧
    (0 : Nat) < 1000 ∧
    (endSession "user_logout" 0 authedSession storeWithToken).2.token =
      some ⟨"tok-abcdefghij", 1000⟩ ∧
    (initSession cfgReject 1 (endSession "user_logout" 0 authedSession storeWithToken).1
      (endSession "user_logout" 0 authedSession storeWithToken).2).2.2 = false ∧
    (initSession cfgReject 1 (endSession "user_logout" 0 authedSession storeWithToken).1
      (endSession "user_logout" 0 authedSession storeWithToken).2).1.isAuthenticated = false :=
  ⟨rfl, by decide, rfl, rfl, rfl⟩

/-- C9 (amended): `endSession` purges only expired tokens, so a token
still unexpired in the store survives it; and when the codec also still
validates that token, a subsequent `initSession` re-establishes
`authenticated == true`. -/
theorem c9_unexpired_valid_token_resumes (cfg : Config) (reason : String) (n1 n2 : Nat)
    (s : SessionState) (db : StoreState) (tk : StoredToken)
    (h1 : db.token = some tk) (h2 : n1 < tk.expiresAt) (h3 : n2 < tk.expiresAt)
    (h4 : cfg.validate tk.value n2 = true) :
    (endSession reason n1 s db).2.token = some tk ∧
    (initSession cfg n2 (endSession reason n1 s db).1 (endSession reason n1 s db).2).2.2 = true ∧
    (initSession cfg n2 (endSession reason n1 s db).1
      (endSession reason n1 s db).2).1.isAuthenticated = true := by
  have hdb : (endSession reason n1 s db).2.token = some tk := by
    unfold endSession
    dsimp only
    refine clearExpiredTokens_token_keep n1 _ tk ?_ h2
    split
    · rw [logEvent_token]
      exact h1
    · exact h1
  have hget : getValidToken n2 (endSession reason n1 s db).2 =
      (some tk.value, (endSession reason n1 s db).2) := by
    unfold getValidToken
    rw [hdb]
    dsimp only
    rw [if_pos h3]
  refine ⟨hdb, ?_, ?_⟩
  · unfold initSession
    rw [hget]
    dsimp only
    rw [if_pos h4]
  · unfold initSession
    rw [hget]
    dsimp only
    rw [if_pos h4]
    rfl

/-- C9 witness: the amended claim at the concrete store whose token
expires at 1000, ending at instant 0 and resuming at instant 1 with a
codec that validates the token. -/
theorem c9_witness :
    (endSession "user_logout" 0 authedSession storeWithToken).2.token =
      some ⟨"tok-abcdefghij", 1000⟩ ∧
    (initSession cfgAccept 1 (endSession "user_logout" 0 authedSession storeWithToken).1
      (endSession "user_logout" 0 authedSession storeWithToken).2).2.2 = true ∧
    (initSession cfgAccept 1 (endSession "user_logout" 0 authedSession storeWithToken).1
      (endSession "user_logout" 0 authedSession storeWithToken).2).1.isAuthenticated = true :=
  c9_unexpired_valid_token_resumes cfgAccept "user_logout" 0 1 authedSession storeWithToken
    ⟨"tok-abcdefghij", 1000⟩ rfl (by decide) (by decide) rfl

end PortalSeguro
